import Mathlib

/-!
Verification of the table-comparison tool (`compare_tables.py`).

The definitions below are a shallow embedding of the Python source:
pure string-building functions become Lean functions on `String`,
Python exceptions (`ValueError`) become `Except String`, Python `dict`
values become association lists, and a fetched result row (the Python
`dict(zip(column_names, row_tuple))`, where `.get` returns `None` both
for an absent key and a SQL NULL) becomes a function `String → Option Value`.
Python string `.upper()` and `.split(".")` are modelled by the structural
`pyUpper` and `pySplitDot` below (identifiers and type names in play are
ASCII).
-/

deriving instance DecidableEq for Except

namespace CompareTables

/-- Python `str.upper()` on the character list of a string (the identifiers
and type names in play are ASCII, where `Char.toUpper` agrees with Python).
Defined structurally so that proofs can evaluate it. -/
def pyUpper (s : String) : String := String.mk (s.data.map Char.toUpper)

/-- Python `str.split(sep)` for a one-character separator, on character
lists: splitting the empty string gives `[[]]`, and every separator
occurrence starts a new piece. Defined structurally so that proofs can
evaluate it. -/
def splitChars (sep : Char) : List Char → List (List Char)
  | [] => [[]]
  | c :: cs =>
    match splitChars sep cs with
    | [] => [[c]]
    | h :: t => if c = sep then [] :: h :: t else (c :: h) :: t

/-- Python `table_name.split(".")` (compare_tables.py, line 164). -/
def pySplitDot (s : String) : List String :=
  (splitChars (Char.ofNat 46) s.data).map String.mk

/-- Embeds `_quote_identifier` (compare_tables.py, lines 87-98). -/
def _quote_identifier (identifier : String) (db_type : String) : String :=
  if db_type = "duckdb" then
    "\"" ++ identifier ++ "\""
  else if db_type = "bigquery" then
    "`" ++ identifier ++ "`"
  else
    identifier

/-- The `valid_types` list of `_get_cast_expression_for_sql_expr`
(compare_tables.py, lines 124-136). -/
def valid_types : List String :=
  ["STRING", "VARCHAR",
   "FLOAT64", "DOUBLE", "FLOAT",
   "BOOL", "BOOLEAN",
   "DATE",
   "TIMESTAMP",
   "INT64", "INTEGER", "BIGINT", "INT", "SMALLINT", "TINYINT",
   "BYTES",
   "NUMERIC", "DECIMAL",
   "BIGNUMERIC",
   "JSON",
   "TIME"]

/-- The `mapping` dict of `_get_cast_expression_for_sql_expr`
(compare_tables.py, lines 142-150). -/
def typeMapping : List (String × String) :=
  [("TEXT", "STRING"),
   ("INT", "INT64"),
   ("INTEGER", "INT64"),
   ("BIGINT", "INT64"),
   ("DOUBLE", "FLOAT64"),
   ("BOOLEAN", "BOOL"),
   ("DECIMAL", "NUMERIC")]

/-- The normalization performed by `_get_cast_expression_for_sql_expr`
(lines 120 and 139-151): uppercase, then apply `mapping` only when the
uppercased name is not already in `valid_types`. -/
def normalizedCastType (cast_type : String) : String :=
  let n := pyUpper cast_type
  if n ∈ valid_types then n else ((typeMapping.lookup n).getD n)

/-- Embeds `_get_cast_expression_for_sql_expr` (compare_tables.py,
lines 115-159): validate/normalize the type, then return the CAST text,
or raise `ValueError` (modelled as `Except.error` carrying the message). -/
def _get_cast_expression_for_sql_expr (sql_expression_to_cast : String)
    (cast_type : String) : Except String String :=
  let n := normalizedCastType cast_type
  if n ∈ valid_types then
    Except.ok ("CAST(" ++ sql_expression_to_cast ++ " AS " ++ n ++ ")")
  else
    Except.error ("Unsupported cast type: \x27" ++ cast_type ++ "\x27. Normalized to \x27"
      ++ n ++ "\x27. Supported/checked types are: " ++ String.intercalate ", " valid_types)

/-- Message of the `ValueError` raised by `_parse_bigquery_table_name` for a
two-part name without a default project (compare_tables.py, lines 169-172). -/
def missingProjectMsg (table_name : String) : String :=
  "Table name \x27" ++ table_name
    ++ "\x27 is missing project ID, and BigQuery client has no default project. "
    ++ "Provide full name as \x27project.dataset.table\x27 or ensure client is initialized with a project."

/-- Message of the `ValueError` raised by `_parse_bigquery_table_name` for a
part count other than 2 or 3 (compare_tables.py, line 175). -/
def invalidFormatMsg (table_name : String) : String :=
  "Invalid BigQuery table name format: \x27" ++ table_name
    ++ "\x27. Expected [project.]dataset.table or dataset.table"

/-- Embeds `_parse_bigquery_table_name` (compare_tables.py, lines 162-175).
`client_project = none` models a client without a project; Python also treats
an empty-string project as missing (`if not client_project`). -/
def _parse_bigquery_table_name (table_name : String) (client_project : Option String) :
    Except String String :=
  match pySplitDot table_name with
  | [_, _, _] => Except.ok table_name
  | [d, t] =>
    match client_project with
    | some p =>
      if p = "" then
        Except.error (missingProjectMsg table_name)
      else
        Except.ok (p ++ "." ++ d ++ "." ++ t)
    | none => Except.error (missingProjectMsg table_name)
  | _ => Except.error (invalidFormatMsg table_name)

/-- Modelled from the spec (section 4.2), for comparison with the source
resolver: the fixed supported set {STRING, FLOAT64, BOOL, DATE, TIMESTAMP,
INT64, BYTES, NUMERIC, BIGNUMERIC, JSON, TIME} that the spec says all cast
types are normalized into. -/
def specSupportedSet : List String :=
  ["STRING", "FLOAT64", "BOOL", "DATE", "TIMESTAMP", "INT64", "BYTES",
   "NUMERIC", "BIGNUMERIC", "JSON", "TIME"]

/-- Modelled from the spec (section 4.2), for comparison with the source
resolver: the synonym map TEXT→STRING, INT/INTEGER/BIGINT→INT64,
DOUBLE→FLOAT64, BOOLEAN→BOOL, DECIMAL→NUMERIC the spec says is always
applied after uppercasing. -/
def specSynonymMap : List (String × String) :=
  [("TEXT", "STRING"),
   ("INT", "INT64"),
   ("INTEGER", "INT64"),
   ("BIGINT", "INT64"),
   ("DOUBLE", "FLOAT64"),
   ("BOOLEAN", "BOOL"),
   ("DECIMAL", "NUMERIC")]

/-- Modelled from the spec (section 4.2): uppercase, then synonym-map,
unconditionally — the normalization the spec (and claims C1/C2) describe. -/
def specNormalize (t : String) : String :=
  (specSynonymMap.lookup (pyUpper t)).getD (pyUpper t)

/-- Embeds `_build_select_expression` (compare_tables.py, lines 189-211):
a scalar cast is applied when the column has one configured, and the result
is aliased as `<side>_<originalName>` quoted per dialect. `scalar_casts`
models the Python dict as an association list (keys unique). -/
def _build_select_expression (col table_alias_in_cte_from : String)
    (scalar_casts : List (String × String)) (db_type : String) : Except String String :=
  let source_col_ref := table_alias_in_cte_from ++ "." ++ _quote_identifier col db_type
  let output_alias_for_cte :=
    _quote_identifier (table_alias_in_cte_from ++ "_" ++ col) db_type
  match scalar_casts.lookup col with
  | some cast_type =>
    match _get_cast_expression_for_sql_expr source_col_ref cast_type with
    | Except.ok e => Except.ok (e ++ " AS " ++ output_alias_for_cte)
    | Except.error msg => Except.error msg
  | none => Except.ok (source_col_ref ++ " AS " ++ output_alias_for_cte)

/-- Embeds the primary-key validation loop of `compare_tables_internal`
(compare_tables.py, lines 257-259): raise `ValueError` on the first
primary-key column that is not a common column. -/
def checkPkCols (pk_cols common_schema_cols : List String) : Except String Unit :=
  match pk_cols with
  | [] => Except.ok ()
  | pk :: rest =>
    if pk ∈ common_schema_cols then checkPkCols rest common_schema_cols
    else Except.error ("Primary key column \x27" ++ pk
      ++ "\x27 not found as a common column in both tables.")

/-- Embeds `compare_cols` (compare_tables.py, line 261): the lexicographically
sorted common columns that are neither primary-key nor ignored columns;
Python `sorted` is modelled by `List.insertionSort`. -/
def compareColsOf (common_schema_cols pk_cols ignore_cols : List String) : List String :=
  List.insertionSort (fun a b => a ≤ b)
    (common_schema_cols.filter
      (fun col => !(pk_cols.contains col) && !(ignore_cols.contains col)))

/-- Embeds `join_on_pks` (compare_tables.py, lines 274-277). -/
def joinOnPks (pk_cols : List String) (db_type : String) : String :=
  String.intercalate " AND " (pk_cols.map (fun pk =>
    "t1." ++ _quote_identifier ("t1_" ++ pk) db_type ++ " = t2."
      ++ _quote_identifier ("t2_" ++ pk) db_type))

/-- Embeds `diff_conditions_list` (compare_tables.py, lines 279-284): one
null-safe `IS DISTINCT FROM` comparison per compare column. -/
def diff_conditions_list (compare_cols : List String) (db_type : String) : List String :=
  compare_cols.map (fun col =>
    "t1." ++ _quote_identifier ("t1_" ++ col) db_type ++ " IS DISTINCT FROM t2."
      ++ _quote_identifier ("t2_" ++ col) db_type)

/-- Embeds `t1_only_conditions` (compare_tables.py, lines 286-288). -/
def t1_only_conditions (pk_cols : List String) (db_type : String) : String :=
  String.intercalate " AND " (pk_cols.map (fun pk =>
    "t2." ++ _quote_identifier ("t2_" ++ pk) db_type ++ " IS NULL"))

/-- Embeds `t2_only_conditions` (compare_tables.py, lines 289-291). -/
def t2_only_conditions (pk_cols : List String) (db_type : String) : String :=
  String.intercalate " AND " (pk_cols.map (fun pk =>
    "t1." ++ _quote_identifier ("t1_" ++ pk) db_type ++ " IS NULL"))

/-- Embeds `where_parts` and `where_clause` (compare_tables.py, lines 293-304). -/
def whereClauseOf (compare_cols pk_cols : List String) (db_type : String) : String :=
  let diff_conds := diff_conditions_list compare_cols db_type
  let where_parts :=
    (if diff_conds ≠ [] then ["(" ++ String.intercalate " OR " diff_conds ++ ")"] else [])
    ++ (if pk_cols ≠ [] then
          ["(" ++ t1_only_conditions pk_cols db_type ++ ")",
           "(" ++ t2_only_conditions pk_cols db_type ++ ")"]
        else [])
  if where_parts = [] then "1=0" else String.intercalate " OR " where_parts

/-- Embeds `coalesced_pk_selects` (compare_tables.py, lines 306-309). -/
def coalesced_pk_selects (pk_cols : List String) (db_type : String) : List String :=
  pk_cols.map (fun pk =>
    "COALESCE(t1." ++ _quote_identifier ("t1_" ++ pk) db_type ++ ", t2."
      ++ _quote_identifier ("t2_" ++ pk) db_type ++ ") AS "
      ++ _quote_identifier pk db_type)

/-- Embeds the query f-string and the limit append (compare_tables.py,
lines 311-328), whitespace included. -/
def assembleQuery (db_type table1_sql_ref table2_sql_ref : String)
    (pk_cols compare_cols : List String) (t1_exprs t2_exprs : List String)
    (limit : Option Int) : String :=
  let query :=
    "\n    WITH table1_prepared AS (\n        SELECT " ++ String.intercalate ", " t1_exprs
    ++ " FROM " ++ table1_sql_ref ++ " t1\n    ),\n    table2_prepared AS (\n        SELECT "
    ++ String.intercalate ", " t2_exprs ++ " FROM " ++ table2_sql_ref
    ++ " t2\n    )\n    SELECT\n        "
    ++ String.intercalate ", " (coalesced_pk_selects pk_cols db_type)
    ++ ",\n        t1.*, \n        t2.*  \n    FROM table1_prepared t1\n    FULL OUTER JOIN table2_prepared t2 ON "
    ++ joinOnPks pk_cols db_type ++ "\n    WHERE "
    ++ whereClauseOf compare_cols pk_cols db_type ++ "\n    "
  match limit with
  | some n => query ++ " LIMIT " ++ toString n
  | none => query

/-- Embeds the query-building part of `compare_tables_internal`
(compare_tables.py, lines 253-328). `common_schema_cols` stands for Python's
`list(set(t1_cols_list).intersection(set(t2_cols_list)))` (line 256), whose
order is unspecified set-iteration order and is therefore taken as an
argument here; `C7_build_query_deterministic` shows the result does not
depend on that order. -/
def buildQueryWithCommon (db_type table1_sql_ref table2_sql_ref : String)
    (common_schema_cols pk_cols ignore_cols : List String)
    (scalar_casts : List (String × String)) (limit : Option Int) :
    Except String String :=
  if pk_cols = [] then
    Except.error "Primary key columns (--pk-cols) must be specified and not empty."
  else
    match checkPkCols pk_cols common_schema_cols with
    | Except.error e => Except.error e
    | Except.ok _ =>
      let compare_cols := compareColsOf common_schema_cols pk_cols ignore_cols
      match (pk_cols ++ compare_cols).mapM
              (fun col => _build_select_expression col "t1" scalar_casts db_type) with
      | Except.error e => Except.error e
      | Except.ok t1_exprs =>
        match (pk_cols ++ compare_cols).mapM
                (fun col => _build_select_expression col "t2" scalar_casts db_type) with
        | Except.error e => Except.error e
        | Except.ok t2_exprs =>
          Except.ok (assembleQuery db_type table1_sql_ref table2_sql_ref
            pk_cols compare_cols t1_exprs t2_exprs limit)

/-- One realization of `list(set(t1_cols_list).intersection(set(t2_cols_list)))`
(compare_tables.py, line 256): the common columns in first-occurrence order;
the Python expression yields some permutation of this list. -/
def commonOf (t1_cols t2_cols : List String) : List String :=
  (t1_cols.filter (fun c => t2_cols.contains c)).dedup

/-- The query construction of `compare_tables_internal` starting from the two
column lists (compare_tables.py, lines 253-328). -/
def compare_tables_query (db_type table1_sql_ref table2_sql_ref : String)
    (t1_cols t2_cols pk_cols ignore_cols : List String)
    (scalar_casts : List (String × String)) (limit : Option Int) :
    Except String String :=
  buildQueryWithCommon db_type table1_sql_ref table2_sql_ref
    (commonOf t1_cols t2_cols) pk_cols ignore_cols scalar_casts limit

/-- A dynamically typed cell value of a result row, as the spec's design
notes suggest (tagged variant): primitives that Python's reconciler keeps
as-is, and `vOther` for a non-primitive backend object carrying its `str()`
rendering. -/
inductive Value where
  | vInt : Int → Value
  | vStr : String → Value
  | vBool : Bool → Value
  | vOther : String → Value
deriving DecidableEq, Repr

/-- A result row as the reconciler sees it: the Python
`row_dict = dict(zip(final_column_names, row_tuple))` accessed through
`row_dict.get`, which yields `None` both for an absent key and a SQL NULL —
modelled as `none`. -/
def Row : Type := String → Option Value

/-- A value of the per-row `diffs` dict: compare columns map to a
`[v1, v2]` pair, while the `"_status"` key maps to the joined status string
(compare_tables.py, lines 360, 364, 378 and 386). -/
inductive DiffVal where
  | pair : Option Value → Option Value → DiffVal
  | status : String → DiffVal
deriving DecidableEq, Repr

/-- A `diff_entry` as built per row (compare_tables.py, lines 347-349 and
383-387): the primary-key output values and the `diffs` dict (modelled as an
association list in insertion order, keys unique). -/
structure DiffEntry where
  pkValues : List (String × Option Value)
  diffs : List (String × DiffVal)
deriving DecidableEq, Repr

/-- Python dict assignment `d[k] = v` on an association list: replace in
place if the key is present, else append. -/
def insertD : List (String × DiffVal) → String → DiffVal → List (String × DiffVal)
  | [], k, v => [(k, v)]
  | (k0, v0) :: rest, k, v =>
    if k0 = k then (k0, v) :: rest else (k0, v0) :: insertD rest k v

/-- Python dict lookup `d.get(k)` on an association list. -/
def lookupD : List (String × DiffVal) → String → Option DiffVal
  | [], _ => none
  | (k0, v0) :: rest, k => if k0 = k then some v0 else lookupD rest k

/-- The BigQuery-only coercion of the reconciler (compare_tables.py,
lines 371-375): a value that is not a Python `str`/`int`/`float`/`bool`/`None`
is replaced by its `str()` form before comparison; other backends leave
values untouched. -/
def coerceValue (db_type : String) (v : Option Value) : Option Value :=
  if db_type = "bigquery" then
    match v with
    | some (Value.vOther s) => some (Value.vStr s)
    | w => w
  else v

/-- Embeds `is_t1_only` (compare_tables.py, line 354): every side-2 aliased
primary-key value is absent and at least one side-1 aliased value is present. -/
def is_t1_only (row : Row) (pk_cols : List String) : Bool :=
  pk_cols.all (fun pk => (row ("t2_" ++ pk)).isNone)
    && pk_cols.any (fun pk => (row ("t1_" ++ pk)).isSome)

/-- Embeds `is_t2_only` (compare_tables.py, line 355). -/
def is_t2_only (row : Row) (pk_cols : List String) : Bool :=
  pk_cols.all (fun pk => (row ("t1_" ++ pk)).isNone)
    && pk_cols.any (fun pk => (row ("t2_" ++ pk)).isSome)

/-- Embeds the value-comparison loop of the both-sides branch
(compare_tables.py, lines 366-379): for each compare column, record the
(coerced) pair exactly when the two sides differ. Compare columns are
distinct (they come from a set), so consing equals dict insertion. -/
def valueDiffs (db_type : String) (row : Row) : List String → List (String × DiffVal)
  | [] => []
  | col :: rest =>
    let val1 := coerceValue db_type (row ("t1_" ++ col))
    let val2 := coerceValue db_type (row ("t2_" ++ col))
    if val1 ≠ val2 then
      (col, DiffVal.pair val1 val2) :: valueDiffs db_type row rest
    else
      valueDiffs db_type row rest

/-- Embeds the per-row computation of `diff_details` and `status_indicators`
(compare_tables.py, lines 351-381). In the source `has_value_diff` is set
exactly when an entry is added to `diff_details`, so it equals
`diff_details` being non-empty. -/
def rowDiffDetails (db_type : String) (row : Row) (pk_cols compare_cols : List String) :
    List (String × DiffVal) × List String :=
  if is_t1_only row pk_cols then
    (compare_cols.map (fun col => (col, DiffVal.pair (row ("t1_" ++ col)) none)),
     ["present_in_table1_only"])
  else if is_t2_only row pk_cols then
    (compare_cols.map (fun col => (col, DiffVal.pair none (row ("t2_" ++ col)))),
     ["present_in_table2_only"])
  else
    let d := valueDiffs db_type row compare_cols
    (d, if d ≠ [] then ["value_differences"] else [])

/-- Embeds the per-row emission step (compare_tables.py, lines 345-387):
build the entry with the primary-key output values, and emit it only if
`diff_details` is non-empty or a presence status was set; when any status
indicator exists, store the joined status string in the `diffs` dict under
the key `"_status"`. -/
def processRow (db_type : String) (pk_cols compare_cols : List String) (row : Row) :
    Option DiffEntry :=
  let dd := rowDiffDetails db_type row pk_cols compare_cols
  if dd.1 ≠ [] ∨ "present_in_table1_only" ∈ dd.2 ∨ "present_in_table2_only" ∈ dd.2 then
    some { pkValues := pk_cols.map (fun pk => (pk, row pk)),
           diffs := if dd.2 ≠ [] then
               insertD dd.1 "_status" (DiffVal.status (String.intercalate "," dd.2))
             else dd.1 }
  else
    none

/-- Embeds the reconciliation loop over all fetched rows
(compare_tables.py, lines 342-389): `output_diffs` collects the emitted
entries in row order. -/
def reconcile (db_type : String) (pk_cols compare_cols : List String) (rows : List Row) :
    List DiffEntry :=
  rows.filterMap (processRow db_type pk_cols compare_cols)

/-- A concrete row, present on both sides with a NULL-vs-value difference in
column `a` (primary key `id`). -/
def c3row : Row := fun k =>
  if k = "t1_id" then some (Value.vInt 1)
  else if k = "t2_id" then some (Value.vInt 1)
  else if k = "t2_a" then some (Value.vStr "x")
  else if k = "id" then some (Value.vInt 1)
  else none

/-- A concrete row present only in table 1 (primary key `id`). -/
def c4row : Row := fun k =>
  if k = "t1_id" then some (Value.vInt 1)
  else if k = "t1_a" then some (Value.vStr "p")
  else if k = "id" then some (Value.vInt 1)
  else none

/-- A concrete row present on both sides with differing values in column `a`. -/
def c9row : Row := fun k =>
  if k = "t1_id" then some (Value.vInt 1)
  else if k = "t2_id" then some (Value.vInt 1)
  else if k = "t1_a" then some (Value.vStr "u")
  else if k = "t2_a" then some (Value.vStr "v")
  else if k = "id" then some (Value.vInt 1)
  else none

/-- A concrete row present on both sides whose compare column is literally
named `_status` and differs between the sides. -/
def c10row : Row := fun k =>
  if k = "t1_id" then some (Value.vInt 1)
  else if k = "t2_id" then some (Value.vInt 1)
  else if k = "t1__status" then some (Value.vStr "a")
  else if k = "t2__status" then some (Value.vStr "b")
  else if k = "id" then some (Value.vInt 1)
  else none

end CompareTables

namespace CompareTables

/-- Claim C1, counterexample: the resolver does not map "int" or "Integer"
to INT64 — both uppercased names are already in `valid_types`, so the synonym
map is never consulted for them, and the produced CAST texts differ from the
claimed `CAST(x AS INT64)` and from each other. -/
theorem C1_counterexample :
    _get_cast_expression_for_sql_expr "x" "int" = Except.ok "CAST(x AS INT)"
  ∧ _get_cast_expression_for_sql_expr "x" "int" ≠ Except.ok "CAST(x AS INT64)"
  ∧ _get_cast_expression_for_sql_expr "x" "Integer" = Except.ok "CAST(x AS INTEGER)" :=
  ⟨rfl, by decide, rfl⟩

/-- Claim C1, amended: the resolver uppercases the requested type and, only
when the uppercased name is not already in `valid_types`, applies the synonym
map; since INT, INTEGER, BIGINT, DOUBLE, BOOLEAN and DECIMAL are themselves in
`valid_types`, they pass through unchanged — "int" and "INT" yield
`CAST(x AS INT)`, "Integer" yields `CAST(x AS INTEGER)` — and of the listed
synonyms only TEXT is effectively remapped ("text" yields `CAST(x AS STRING)`). -/
theorem C1_cast_normalization (x : String) :
    (∀ t : String, pyUpper t ∈ valid_types →
      _get_cast_expression_for_sql_expr x t =
        Except.ok ("CAST(" ++ x ++ " AS " ++ pyUpper t ++ ")"))
  ∧ _get_cast_expression_for_sql_expr x "int" = Except.ok ("CAST(" ++ x ++ " AS INT)")
  ∧ _get_cast_expression_for_sql_expr x "INT" = Except.ok ("CAST(" ++ x ++ " AS INT)")
  ∧ _get_cast_expression_for_sql_expr x "Integer" = Except.ok ("CAST(" ++ x ++ " AS INTEGER)")
  ∧ _get_cast_expression_for_sql_expr x "text" = Except.ok ("CAST(" ++ x ++ " AS STRING)") := by
  have hINT : ("INT" : String) ∈ valid_types := by decide
  have hINTEGER : ("INTEGER" : String) ∈ valid_types := by decide
  have hTEXT : ("TEXT" : String) ∉ valid_types := by decide
  have hSTRING : ("STRING" : String) ∈ valid_types := by decide
  refine ⟨?_, ?_, ?_, ?_, ?_⟩
  · intro t ht
    simp [_get_cast_expression_for_sql_expr, normalizedCastType, ht]
  · simp [_get_cast_expression_for_sql_expr, normalizedCastType, pyUpper,
      String.append_assoc, hINT]
  · simp [_get_cast_expression_for_sql_expr, normalizedCastType, pyUpper,
      String.append_assoc, hINT]
  · simp [_get_cast_expression_for_sql_expr, normalizedCastType, pyUpper,
      String.append_assoc, hINTEGER]
  · simp [_get_cast_expression_for_sql_expr, normalizedCastType, pyUpper,
      String.append_assoc, hTEXT, hSTRING, typeMapping]

/-- Witness for `C1_cast_normalization` at a concrete input. -/
theorem C1_cast_normalization_witness :
    pyUpper "date" ∈ valid_types
  ∧ _get_cast_expression_for_sql_expr "x" "date" = Except.ok "CAST(x AS DATE)" :=
  ⟨by decide, (C1_cast_normalization "x").1 "date" (by decide)⟩

/-- Claim C2, counterexample: "varchar" uppercases to VARCHAR, which the
spec's synonym map does not touch and which is outside the spec's supported
set, yet the resolver succeeds and returns a CAST string, because the source's
`valid_types` list is strictly larger than the spec's set. -/
theorem C2_counterexample :
    specNormalize "varchar" ∉ specSupportedSet
  ∧ _get_cast_expression_for_sql_expr "x" "varchar" = Except.ok "CAST(x AS VARCHAR)" :=
  ⟨by decide, rfl⟩

/-- Claim C2, amended: the resolver fails — with a `ValueError` whose message
names the offending input and the checked type list — exactly when the
uppercased-then-synonym-mapped form is not in the source's `valid_types` list
(a strict superset of the spec's 11-name set, also containing VARCHAR, FLOAT,
SMALLINT, TINYINT and the unmapped synonyms); in particular "frobnicate"
fails and no CAST string is returned for such an input. -/
theorem C2_unsupported_type_error (e t : String) (h : normalizedCastType t ∉ valid_types) :
    _get_cast_expression_for_sql_expr e t =
      Except.error ("Unsupported cast type: \x27" ++ t ++ "\x27. Normalized to \x27"
        ++ normalizedCastType t ++ "\x27. Supported/checked types are: "
        ++ String.intercalate ", " valid_types) := by
  simp only [_get_cast_expression_for_sql_expr]
  rw [if_neg h]

/-- Witness for `C2_unsupported_type_error` at the spec's own example input. -/
theorem C2_unsupported_type_error_witness :
    normalizedCastType "frobnicate" ∉ valid_types
  ∧ _get_cast_expression_for_sql_expr "x" "frobnicate" =
      Except.error ("Unsupported cast type: \x27frobnicate\x27. Normalized to \x27FROBNICATE\x27. "
        ++ "Supported/checked types are: " ++ String.intercalate ", " valid_types) :=
  ⟨by decide, C2_unsupported_type_error "x" "frobnicate" (by decide)⟩

/-- Claim C8: BigQuery table-name qualification passes a three-part name
through unchanged, expands a two-part name to project.dataset.table with the
client's default project, and raises a `ValueError` for a two-part name
without a usable default project as well as for any other part count. -/
theorem C8_table_name_qualification (tn : String) (proj : Option String) :
    ((pySplitDot tn).length = 3 → _parse_bigquery_table_name tn proj = Except.ok tn)
  ∧ (∀ d t, pySplitDot tn = [d, t] →
        (∀ p, proj = some p → p ≠ "" →
          _parse_bigquery_table_name tn proj = Except.ok (p ++ "." ++ d ++ "." ++ t))
      ∧ ((proj = none ∨ proj = some "") →
          _parse_bigquery_table_name tn proj = Except.error (missingProjectMsg tn)))
  ∧ ((pySplitDot tn).length ≠ 3 → (pySplitDot tn).length ≠ 2 →
      _parse_bigquery_table_name tn proj = Except.error (invalidFormatMsg tn)) := by
  refine ⟨?_, ?_, ?_⟩
  · intro h3
    rcases hl : pySplitDot tn with _ | ⟨a, _ | ⟨b, _ | ⟨c, _ | rest⟩⟩⟩ <;>
      rw [hl] at h3 <;> simp_all [_parse_bigquery_table_name]
  · intro d t hdt
    constructor
    · intro p hp hpne
      subst hp
      simp [_parse_bigquery_table_name, hdt, hpne]
    · rintro (hp | hp) <;> subst hp <;> simp [_parse_bigquery_table_name, hdt]
  · intro h3 h2
    rcases hl : pySplitDot tn with _ | ⟨a, _ | ⟨b, _ | ⟨c, _ | rest⟩⟩⟩ <;>
      rw [hl] at h3 h2 <;> simp_all [_parse_bigquery_table_name]

/-- Witness for `C8_table_name_qualification` at concrete inputs. -/
theorem C8_table_name_qualification_witness :
    _parse_bigquery_table_name "ds.tbl" (some "proj") = Except.ok "proj.ds.tbl" :=
  ((C8_table_name_qualification "ds.tbl" (some "proj")).2.1 "ds" "tbl"
    (by decide)).1 "proj" rfl (by decide)

/-- Helper: if some primary-key column is missing from the common columns,
the validation loop raises on the first such column. -/
theorem checkPkCols_error (pk_cols common : List String)
    (h : ∃ pk ∈ pk_cols, pk ∉ common) :
    ∃ pk ∈ pk_cols, pk ∉ common ∧ checkPkCols pk_cols common =
      Except.error ("Primary key column \x27" ++ pk
        ++ "\x27 not found as a common column in both tables.") := by
  induction pk_cols with
  | nil => simp at h
  | cons pk rest ih =>
    by_cases hpk : pk ∈ common
    · have hrest : ∃ q ∈ rest, q ∉ common := by
        rcases h with ⟨q, hq1, hq2⟩
        rcases List.mem_cons.mp hq1 with hq | hq
        · exact absurd hpk (hq ▸ hq2)
        · exact ⟨q, hq, hq2⟩
      obtain ⟨q, hq1, hq2, hq3⟩ := ih hrest
      exact ⟨q, List.mem_cons_of_mem _ hq1, hq2, by simp [checkPkCols, hpk, hq3]⟩
    · exact ⟨pk, List.mem_cons_self _ _, hpk, by simp [checkPkCols, hpk]⟩

/-- Helper: membership in `commonOf` is membership in both column lists. -/
theorem mem_commonOf (t1_cols t2_cols : List String) (c : String) :
    c ∈ commonOf t1_cols t2_cols ↔ c ∈ t1_cols ∧ c ∈ t2_cols := by
  simp [commonOf, List.mem_dedup, List.mem_filter]

/-- Claim C6: when the primary-key list is empty, or some primary-key column
is not common to both tables, the query construction fails with the
corresponding configuration `ValueError` and no query string is produced;
the error never depends on the scalar casts (validation happens first). -/
theorem C6_config_validation (db_type r1 r2 : String)
    (t1_cols t2_cols pk_cols ignore_cols : List String)
    (scalar_casts : List (String × String)) (limit : Option Int)
    (h : pk_cols = [] ∨ ∃ pk ∈ pk_cols, pk ∉ commonOf t1_cols t2_cols) :
    ∃ msg, compare_tables_query db_type r1 r2 t1_cols t2_cols pk_cols ignore_cols
        scalar_casts limit = Except.error msg
      ∧ (msg = "Primary key columns (--pk-cols) must be specified and not empty."
         ∨ ∃ pk ∈ pk_cols, pk ∉ commonOf t1_cols t2_cols
             ∧ msg = "Primary key column \x27" ++ pk
                 ++ "\x27 not found as a common column in both tables.") := by
  rcases h with he | hex
  · subst he
    exact ⟨_, by simp [compare_tables_query, buildQueryWithCommon], Or.inl rfl⟩
  · obtain ⟨pk, h1, h2, h3⟩ := checkPkCols_error pk_cols _ hex
    have hne : pk_cols ≠ [] := by
      intro hnil
      rw [hnil] at h1
      simp at h1
    refine ⟨_, ?_, Or.inr ⟨pk, h1, h2, rfl⟩⟩
    simp [compare_tables_query, buildQueryWithCommon, hne, h3]

/-- Witness for `C6_config_validation` at a concrete input. -/
theorem C6_config_validation_witness :
    ∃ msg, compare_tables_query "duckdb" "\"A\"" "\"B\"" ["id", "v"] ["id", "w"]
        ["id", "v"] [] [] none = Except.error msg
      ∧ (msg = "Primary key columns (--pk-cols) must be specified and not empty."
         ∨ ∃ pk ∈ (["id", "v"] : List String), pk ∉ commonOf ["id", "v"] ["id", "w"]
             ∧ msg = "Primary key column \x27" ++ pk
                 ++ "\x27 not found as a common column in both tables.") :=
  C6_config_validation "duckdb" "\"A\"" "\"B\"" ["id", "v"] ["id", "w"]
    ["id", "v"] [] [] none (Or.inr ⟨"v", by decide, by decide⟩)

/-- Helper: the primary-key validation loop only inspects membership in the
common-column list, so membership-equivalent lists validate identically. -/
theorem checkPkCols_congr (pk_cols common common' : List String)
    (hmem : ∀ c, c ∈ common ↔ c ∈ common') :
    checkPkCols pk_cols common = checkPkCols pk_cols common' := by
  induction pk_cols with
  | nil => rfl
  | cons p rest ih =>
    by_cases hp : p ∈ common
    · have hp' : p ∈ common' := (hmem p).mp hp
      simp [checkPkCols, hp, hp', ih]
    · have hp' : p ∉ common' := fun hc => hp ((hmem p).mpr hc)
      simp [checkPkCols, hp, hp']

/-- Helper: the sorted compare-column list is invariant under permutation of
the common-column list. -/
theorem compareColsOf_perm (common common' pk_cols ignore_cols : List String)
    (hperm : common.Perm common') :
    compareColsOf common pk_cols ignore_cols = compareColsOf common' pk_cols ignore_cols := by
  unfold compareColsOf
  exact List.eq_of_perm_of_sorted (r := fun a b => a ≤ b)
    (((List.perm_insertionSort _ _).trans (hperm.filter _)).trans
      (List.perm_insertionSort _ _).symm)
    (List.sorted_insertionSort _ _) (List.sorted_insertionSort _ _)

/-- Claim C7: the built SQL text is a deterministic function of the
comparison spec — in particular it is invariant under the (set-iteration)
order of the common-column list — and the compare-column order it embeds is
the lexicographic sort of the common non-key, non-ignored columns. -/
theorem C7_build_query_deterministic (db_type r1 r2 : String)
    (common common' pk_cols ignore_cols : List String)
    (scalar_casts : List (String × String)) (limit : Option Int)
    (hperm : common.Perm common') :
    buildQueryWithCommon db_type r1 r2 common pk_cols ignore_cols scalar_casts limit
      = buildQueryWithCommon db_type r1 r2 common' pk_cols ignore_cols scalar_casts limit
  ∧ List.Sorted (fun a b : String => a ≤ b) (compareColsOf common pk_cols ignore_cols)
  ∧ (compareColsOf common pk_cols ignore_cols).Perm
      (common.filter (fun col => !(pk_cols.contains col) && !(ignore_cols.contains col))) := by
  refine ⟨?_, List.sorted_insertionSort _ _, List.perm_insertionSort _ _⟩
  unfold buildQueryWithCommon
  rw [checkPkCols_congr pk_cols common common' (fun c => hperm.mem_iff),
    compareColsOf_perm common common' pk_cols ignore_cols hperm]

/-- Witness for `C7_build_query_deterministic` at a concrete input. -/
theorem C7_build_query_deterministic_witness :
    buildQueryWithCommon "duckdb" "\"A\"" "\"B\"" ["b", "a", "id"] ["id"] [] [] none
      = buildQueryWithCommon "duckdb" "\"A\"" "\"B\"" ["a", "b", "id"] ["id"] [] [] none :=
  (C7_build_query_deterministic "duckdb" "\"A\"" "\"B\"" ["b", "a", "id"] ["a", "b", "id"]
    ["id"] [] [] none (List.Perm.swap "a" "b" ["id"])).1

/-- Helper: the coercion maps an absent/NULL value to itself. -/
theorem coerceValue_none (db_type : String) : coerceValue db_type none = none := by
  unfold coerceValue
  split <;> rfl

/-- Helper: the coercion never turns a present value into an absent one. -/
theorem coerceValue_some (db_type : String) (v : Value) :
    ∃ w, coerceValue db_type (some v) = some w := by
  unfold coerceValue
  split
  · cases v <;> exact ⟨_, rfl⟩
  · exact ⟨v, rfl⟩

/-- Helper: dict assignment followed by lookup of the same key. -/
theorem lookupD_insertD_self (l : List (String × DiffVal)) (k : String) (v : DiffVal) :
    lookupD (insertD l k v) k = some v := by
  induction l with
  | nil => simp [insertD, lookupD]
  | cons hd tl ih =>
    obtain ⟨k0, v0⟩ := hd
    by_cases h : k0 = k
    · simp [insertD, lookupD, h]
    · simp [insertD, lookupD, h, ih]

/-- Helper: looking up a member key in a keyed map of a list. -/
theorem lookupD_map_pair (l : List String) (col : String) (f : String → DiffVal)
    (h : col ∈ l) :
    lookupD (l.map (fun c => (c, f c))) col = some (f col) := by
  induction l with
  | nil => simp at h
  | cons c rest ih =>
    by_cases hc : c = col
    · subst hc
      simp [lookupD]
    · rcases List.mem_cons.mp h with h1 | h1
      · exact absurd h1.symm hc
      · simp [lookupD, hc, ih h1]

/-- Helper: a compare column that is NULL on both sides is never recorded in
the value-diff dict. -/
theorem lookupD_valueDiffs_both_none (db_type : String) (row : Row) (l : List String)
    (col : String) (h1 : row ("t1_" ++ col) = none) (h2 : row ("t2_" ++ col) = none) :
    lookupD (valueDiffs db_type row l) col = none := by
  induction l with
  | nil => rfl
  | cons c rest ih =>
    by_cases hc : c = col
    · subst hc
      simp [valueDiffs, h1, h2, coerceValue_none, ih]
    · simp only [valueDiffs]
      split
      · simp [lookupD, hc, ih]
      · exact ih

/-- Helper: a compare column present on side 1 and NULL on side 2 is recorded
with the (coerced) side-1 value and an absent side-2 value. -/
theorem lookupD_valueDiffs_left (db_type : String) (row : Row) (l : List String)
    (col : String) (v : Value) (hmem : col ∈ l)
    (h1 : row ("t1_" ++ col) = some v) (h2 : row ("t2_" ++ col) = none) :
    lookupD (valueDiffs db_type row l) col
      = some (DiffVal.pair (coerceValue db_type (some v)) none) := by
  induction l with
  | nil => simp at hmem
  | cons c rest ih =>
    by_cases hc : c = col
    · subst hc
      have hne : coerceValue db_type (some v) ≠ none := by
        obtain ⟨w, hw⟩ := coerceValue_some db_type v
        simp [hw]
      simp [valueDiffs, h1, h2, coerceValue_none, hne, lookupD]
    · rcases List.mem_cons.mp hmem with he | he
      · exact absurd he.symm hc
      · simp only [valueDiffs]
        split
        · simp [lookupD, hc, ih he]
        · exact ih he

/-- Helper: a compare column NULL on side 1 and present on side 2 is recorded
with an absent side-1 value and the (coerced) side-2 value. -/
theorem lookupD_valueDiffs_right (db_type : String) (row : Row) (l : List String)
    (col : String) (v : Value) (hmem : col ∈ l)
    (h1 : row ("t1_" ++ col) = none) (h2 : row ("t2_" ++ col) = some v) :
    lookupD (valueDiffs db_type row l) col
      = some (DiffVal.pair none (coerceValue db_type (some v))) := by
  induction l with
  | nil => simp at hmem
  | cons c rest ih =>
    by_cases hc : c = col
    · subst hc
      have hne : coerceValue db_type (some v) ≠ none := by
        obtain ⟨w, hw⟩ := coerceValue_some db_type v
        simp [hw]
      simp [valueDiffs, h1, h2, coerceValue_none, hne.symm, lookupD]
    · rcases List.mem_cons.mp hmem with he | he
      · exact absurd he.symm hc
      · simp only [valueDiffs]
        split
        · simp [lookupD, hc, ih he]
        · exact ih he

/-- Helper: a row with a present side-1 primary-key part cannot satisfy the
all-side-1-NULL half of `is_t2_only`, and vice versa. -/
theorem not_t1_and_t2 (row : Row) (pk_cols : List String) :
    ¬(is_t1_only row pk_cols = true ∧ is_t2_only row pk_cols = true) := by
  rintro ⟨h1, h2⟩
  simp only [is_t1_only, Bool.and_eq_true] at h1
  simp only [is_t2_only, Bool.and_eq_true] at h2
  obtain ⟨-, h1b⟩ := h1
  obtain ⟨h2a, -⟩ := h2
  obtain ⟨pk, hpk, hsome⟩ := List.any_eq_true.mp h1b
  have hnone := List.all_eq_true.mp h2a pk hpk
  cases hrow : row ("t1_" ++ pk) with
  | none => rw [hrow] at hsome; simp at hsome
  | some w => rw [hrow] at hnone; simp at hnone

/-- Claim C3: for a row present on both sides, a compare column that is NULL
on both sides does not appear in the per-column diffs, while a column NULL on
exactly one side appears with its (value, absent) pair; and the query filter
uses a null-safe `IS DISTINCT FROM` condition for every compare column. -/
theorem C3_null_safe_comparison (db_type : String) (row : Row)
    (pk_cols compare_cols : List String) (col : String)
    (hmem : col ∈ compare_cols)
    (ht1 : pk_cols.any (fun pk => (row ("t1_" ++ pk)).isSome) = true)
    (ht2 : pk_cols.any (fun pk => (row ("t2_" ++ pk)).isSome) = true) :
    (row ("t1_" ++ col) = none → row ("t2_" ++ col) = none →
      lookupD (rowDiffDetails db_type row pk_cols compare_cols).1 col = none)
  ∧ (∀ v, row ("t1_" ++ col) = some v → row ("t2_" ++ col) = none →
      lookupD (rowDiffDetails db_type row pk_cols compare_cols).1 col
        = some (DiffVal.pair (coerceValue db_type (some v)) none))
  ∧ (∀ v, row ("t1_" ++ col) = none → row ("t2_" ++ col) = some v →
      lookupD (rowDiffDetails db_type row pk_cols compare_cols).1 col
        = some (DiffVal.pair none (coerceValue db_type (some v))))
  ∧ ("t1." ++ _quote_identifier ("t1_" ++ col) db_type ++ " IS DISTINCT FROM t2."
        ++ _quote_identifier ("t2_" ++ col) db_type)
      ∈ diff_conditions_list compare_cols db_type := by
  have h1 : is_t1_only row pk_cols = false := by
    obtain ⟨pk, hpk, hsome⟩ := List.any_eq_true.mp ht2
    have hall : pk_cols.all (fun pk => (row ("t2_" ++ pk)).isNone) = false := by
      refine List.all_eq_false.mpr ⟨pk, hpk, ?_⟩
      cases hrow : row ("t2_" ++ pk) with
      | none => rw [hrow] at hsome; simp at hsome
      | some w => simp
    simp [is_t1_only, hall]
  have h2 : is_t2_only row pk_cols = false := by
    obtain ⟨pk, hpk, hsome⟩ := List.any_eq_true.mp ht1
    have hall : pk_cols.all (fun pk => (row ("t1_" ++ pk)).isNone) = false := by
      refine List.all_eq_false.mpr ⟨pk, hpk, ?_⟩
      cases hrow : row ("t1_" ++ pk) with
      | none => rw [hrow] at hsome; simp at hsome
      | some w => simp
    simp [is_t2_only, hall]
  have hdd : (rowDiffDetails db_type row pk_cols compare_cols).1
      = valueDiffs db_type row compare_cols := by
    simp [rowDiffDetails, h1, h2]
  refine ⟨?_, ?_, ?_, ?_⟩
  · intro ha hb
    rw [hdd]
    exact lookupD_valueDiffs_both_none db_type row compare_cols col ha hb
  · intro v ha hb
    rw [hdd]
    exact lookupD_valueDiffs_left db_type row compare_cols col v hmem ha hb
  · intro v ha hb
    rw [hdd]
    exact lookupD_valueDiffs_right db_type row compare_cols col v hmem ha hb
  · simp only [diff_conditions_list, List.mem_map]
    exact ⟨col, hmem, rfl⟩

/-- Witness for `C3_null_safe_comparison` at a concrete input: a NULL-vs-"x"
column is reported with its pair. -/
theorem C3_null_safe_comparison_witness :
    lookupD (rowDiffDetails "duckdb" c3row ["id"] ["a"]).1 "a"
      = some (DiffVal.pair none (coerceValue "duckdb" (some (Value.vStr "x")))) :=
  (C3_null_safe_comparison "duckdb" c3row ["id"] ["a"] "a" (by decide) (by decide)
    (by decide)).2.2.1 (Value.vStr "x") rfl rfl

/-- Claim C4: a row whose side-2 primary-key values are all absent and with
some side-1 primary-key value present is emitted with status
present_in_table1_only and every compare column recorded as
(side-1 value, absent); symmetrically for table-2-only rows; and no row is
classified as both. -/
theorem C4_presence_classification (db_type : String) (row : Row)
    (pk_cols compare_cols : List String) :
    (is_t1_only row pk_cols = true →
        (rowDiffDetails db_type row pk_cols compare_cols).2 = ["present_in_table1_only"]
      ∧ (∀ col ∈ compare_cols,
          lookupD (rowDiffDetails db_type row pk_cols compare_cols).1 col
            = some (DiffVal.pair (row ("t1_" ++ col)) none))
      ∧ ∃ e, processRow db_type pk_cols compare_cols row = some e
          ∧ lookupD e.diffs "_status" = some (DiffVal.status "present_in_table1_only"))
  ∧ (is_t2_only row pk_cols = true →
        (rowDiffDetails db_type row pk_cols compare_cols).2 = ["present_in_table2_only"]
      ∧ (∀ col ∈ compare_cols,
          lookupD (rowDiffDetails db_type row pk_cols compare_cols).1 col
            = some (DiffVal.pair none (row ("t2_" ++ col))))
      ∧ ∃ e, processRow db_type pk_cols compare_cols row = some e
          ∧ lookupD e.diffs "_status" = some (DiffVal.status "present_in_table2_only"))
  ∧ ¬(is_t1_only row pk_cols = true ∧ is_t2_only row pk_cols = true) := by
  refine ⟨?_, ?_, not_t1_and_t2 row pk_cols⟩
  · intro h1
    have hdd : rowDiffDetails db_type row pk_cols compare_cols
        = (compare_cols.map (fun col => (col, DiffVal.pair (row ("t1_" ++ col)) none)),
           ["present_in_table1_only"]) := by
      simp [rowDiffDetails, h1]
    refine ⟨by rw [hdd], ?_, ?_⟩
    · intro col hcol
      rw [hdd]
      exact lookupD_map_pair compare_cols col
        (fun c => DiffVal.pair (row ("t1_" ++ c)) none) hcol
    · refine ⟨⟨pk_cols.map (fun pk => (pk, row pk)),
        insertD (compare_cols.map (fun col => (col, DiffVal.pair (row ("t1_" ++ col)) none)))
          "_status" (DiffVal.status "present_in_table1_only")⟩, ?_, ?_⟩
      · have hint : String.intercalate "," ["present_in_table1_only"]
            = "present_in_table1_only" := rfl
        simp [processRow, hdd, hint]
      · exact lookupD_insertD_self _ _ _
  · intro h2
    have h1 : is_t1_only row pk_cols = false := by
      cases hb : is_t1_only row pk_cols with
      | false => rfl
      | true => exact ((not_t1_and_t2 row pk_cols) ⟨hb, h2⟩).elim
    have hdd : rowDiffDetails db_type row pk_cols compare_cols
        = (compare_cols.map (fun col => (col, DiffVal.pair none (row ("t2_" ++ col)))),
           ["present_in_table2_only"]) := by
      simp [rowDiffDetails, h1, h2]
    refine ⟨by rw [hdd], ?_, ?_⟩
    · intro col hcol
      rw [hdd]
      exact lookupD_map_pair compare_cols col
        (fun c => DiffVal.pair none (row ("t2_" ++ c))) hcol
    · refine ⟨⟨pk_cols.map (fun pk => (pk, row pk)),
        insertD (compare_cols.map (fun col => (col, DiffVal.pair none (row ("t2_" ++ col)))))
          "_status" (DiffVal.status "present_in_table2_only")⟩, ?_, ?_⟩
      · have hint : String.intercalate "," ["present_in_table2_only"]
            = "present_in_table2_only" := rfl
        simp [processRow, hdd, hint]
      · exact lookupD_insertD_self _ _ _

/-- Witness for `C4_presence_classification` at a concrete table-1-only row. -/
theorem C4_presence_classification_witness :
    (rowDiffDetails "duckdb" c4row ["id"] ["a"]).2 = ["present_in_table1_only"] :=
  ((C4_presence_classification "duckdb" c4row ["id"] ["a"]).1 (by decide)).1

/-- Claim C5: a row is emitted only when its per-column diffs are non-empty
or a presence-only status was set; and with an empty compare-column set every
emitted record is presence-only (its diffs dict is exactly the one status
entry) — value_differences never occurs. -/
theorem C5_emission_condition (db_type : String) (pk_cols compare_cols : List String)
    (rows : List Row) (row : Row) (e : DiffEntry) :
    (processRow db_type pk_cols compare_cols row = some e →
        (rowDiffDetails db_type row pk_cols compare_cols).1 ≠ []
        ∨ "present_in_table1_only" ∈ (rowDiffDetails db_type row pk_cols compare_cols).2
        ∨ "present_in_table2_only" ∈ (rowDiffDetails db_type row pk_cols compare_cols).2)
  ∧ (compare_cols = [] → e ∈ reconcile db_type pk_cols compare_cols rows →
        e.diffs = [("_status", DiffVal.status "present_in_table1_only")]
      ∨ e.diffs = [("_status", DiffVal.status "present_in_table2_only")]) := by
  constructor
  · intro h
    by_contra hn
    simp only [processRow] at h
    rw [if_neg hn] at h
    exact Option.noConfusion h
  · intro hcc he
    subst hcc
    simp only [reconcile] at he
    obtain ⟨r, hr, hpr⟩ := List.mem_filterMap.mp he
    by_cases h1 : is_t1_only r pk_cols = true
    · have hdd : rowDiffDetails db_type r pk_cols [] = ([], ["present_in_table1_only"]) := by
        simp [rowDiffDetails, h1]
      have hint : String.intercalate "," ["present_in_table1_only"]
          = "present_in_table1_only" := rfl
      simp [processRow, hdd, hint, insertD] at hpr
      left
      rw [← hpr]
    · by_cases h2 : is_t2_only r pk_cols = true
      · have h1f : is_t1_only r pk_cols = false := by simpa using h1
        have hdd : rowDiffDetails db_type r pk_cols [] = ([], ["present_in_table2_only"]) := by
          simp [rowDiffDetails, h1f, h2]
        have hint : String.intercalate "," ["present_in_table2_only"]
            = "present_in_table2_only" := rfl
        simp [processRow, hdd, hint, insertD] at hpr
        right
        rw [← hpr]
      · have h1f : is_t1_only r pk_cols = false := by simpa using h1
        have h2f : is_t2_only r pk_cols = false := by simpa using h2
        have hdd : rowDiffDetails db_type r pk_cols [] = ([], []) := by
          simp [rowDiffDetails, h1f, h2f, valueDiffs]
        simp [processRow, hdd] at hpr

/-- Witness for `C5_emission_condition`: reconciling a single table-1-only
row with no compare columns yields a presence-only record. -/
theorem C5_emission_condition_witness :
    (⟨[("id", some (Value.vInt 1))],
       [("_status", DiffVal.status "present_in_table1_only")]⟩ : DiffEntry).diffs
        = [("_status", DiffVal.status "present_in_table1_only")]
  ∨ (⟨[("id", some (Value.vInt 1))],
       [("_status", DiffVal.status "present_in_table1_only")]⟩ : DiffEntry).diffs
        = [("_status", DiffVal.status "present_in_table2_only")] :=
  (C5_emission_condition "duckdb" ["id"] [] [c4row] c4row
    ⟨[("id", some (Value.vInt 1))],
     [("_status", DiffVal.status "present_in_table1_only")]⟩).2 rfl (by decide)

/-- Claim C9: every emitted record carries exactly one status indicator —
present_in_table1_only, present_in_table2_only or value_differences — and its
diffs dict holds that single status string under `"_status"`; combinations
never occur. -/
theorem C9_single_status (db_type : String) (pk_cols compare_cols : List String)
    (row : Row) (e : DiffEntry)
    (h : processRow db_type pk_cols compare_cols row = some e) :
    ∃ s, (rowDiffDetails db_type row pk_cols compare_cols).2 = [s]
      ∧ (s = "present_in_table1_only" ∨ s = "present_in_table2_only"
          ∨ s = "value_differences")
      ∧ lookupD e.diffs "_status" = some (DiffVal.status s) := by
  by_cases h1 : is_t1_only row pk_cols = true
  · have hdd : rowDiffDetails db_type row pk_cols compare_cols
        = (compare_cols.map (fun col => (col, DiffVal.pair (row ("t1_" ++ col)) none)),
           ["present_in_table1_only"]) := by
      simp [rowDiffDetails, h1]
    have hint : String.intercalate "," ["present_in_table1_only"]
        = "present_in_table1_only" := rfl
    simp [processRow, hdd, hint] at h
    refine ⟨"present_in_table1_only", by rw [hdd], Or.inl rfl, ?_⟩
    rw [← h]
    exact lookupD_insertD_self _ _ _
  · by_cases h2 : is_t2_only row pk_cols = true
    · have h1f : is_t1_only row pk_cols = false := by simpa using h1
      have hdd : rowDiffDetails db_type row pk_cols compare_cols
          = (compare_cols.map (fun col => (col, DiffVal.pair none (row ("t2_" ++ col)))),
             ["present_in_table2_only"]) := by
        simp [rowDiffDetails, h1f, h2]
      have hint : String.intercalate "," ["present_in_table2_only"]
          = "present_in_table2_only" := rfl
      simp [processRow, hdd, hint] at h
      refine ⟨"present_in_table2_only", by rw [hdd], Or.inr (Or.inl rfl), ?_⟩
      rw [← h]
      exact lookupD_insertD_self _ _ _
    · have h1f : is_t1_only row pk_cols = false := by simpa using h1
      have h2f : is_t2_only row pk_cols = false := by simpa using h2
      by_cases hdn : valueDiffs db_type row compare_cols = []
      · have hdd : rowDiffDetails db_type row pk_cols compare_cols = ([], []) := by
          simp [rowDiffDetails, h1f, h2f, hdn]
        simp [processRow, hdd] at h
      · have hdd : rowDiffDetails db_type row pk_cols compare_cols
            = (valueDiffs db_type row compare_cols, ["value_differences"]) := by
          simp [rowDiffDetails, h1f, h2f, hdn]
        have hint : String.intercalate "," ["value_differences"]
            = "value_differences" := rfl
        simp [processRow, hdd, hint, hdn] at h
        refine ⟨"value_differences", by rw [hdd], Or.inr (Or.inr rfl), ?_⟩
        rw [← h]
        exact lookupD_insertD_self _ _ _

/-- Witness for `C9_single_status` at a concrete value-difference row. -/
theorem C9_single_status_witness :
    ∃ s, (rowDiffDetails "duckdb" c9row ["id"] ["a"]).2 = [s]
      ∧ (s = "present_in_table1_only" ∨ s = "present_in_table2_only"
          ∨ s = "value_differences")
      ∧ lookupD [("a", DiffVal.pair (some (Value.vStr "u")) (some (Value.vStr "v"))),
                 ("_status", DiffVal.status "value_differences")] "_status"
          = some (DiffVal.status s) :=
  C9_single_status "duckdb" ["id"] ["a"] c9row
    ⟨[("id", some (Value.vInt 1))],
     [("a", DiffVal.pair (some (Value.vStr "u")) (some (Value.vStr "v"))),
      ("_status", DiffVal.status "value_differences")]⟩ (by decide)

/-- Claim C10: the status string is stored inside the per-column diffs dict
under the key `"_status"`, not as a separate record field; for a row whose
compare column is literally named `_status` with differing values, the
recorded (v1, v2) pair of that column is overwritten by the status string in
the emitted record. -/
theorem C10_status_inside_diffs :
    (rowDiffDetails "duckdb" c10row ["id"] ["_status"]).1
      = [("_status", DiffVal.pair (some (Value.vStr "a")) (some (Value.vStr "b")))]
  ∧ processRow "duckdb" ["id"] ["_status"] c10row
      = some ⟨[("id", some (Value.vInt 1))],
              [("_status", DiffVal.status "value_differences")]⟩ := by
  exact ⟨by decide, by decide⟩

end CompareTables
